import Mathlib

/-!
Shallow embedding, in Lean 4, of the tutorial scripts of the repository
`quantum-computing-d-wave`, together with theorems settling the stated
properties of the scripts.

The repository consists of five flat Python scripts:
  * `Boolean_NOT_Gate.py`, `Boolean_AND_Gate.py` (QUBO coefficient mappings),
  * `Constrained_Scheduling.py` (a constraint function and counting loops),
  * `Vertex_Cover.py` (minimum vertex cover of small graphs),
  * `Multiple-Gate_Circuit.py` (two CSP formulations of a logic circuit).
Pure functions and literal data of the scripts are translated directly.
Behaviour of the vendor SDK (exact solver, sorted responses, vertex-cover
solver) is modelled from the specification where noted.
-/

namespace DWave

/-- Value of a binary variable as an integer: `true ↦ 1`, `false ↦ 0`. -/
def bval (b : Bool) : ℤ := if b then 1 else 0

/-- Energy of a QUBO given as a coefficient mapping from variable pairs to
integer weights, evaluated at an assignment of Boolean values to variable
names: the sum of `coeff * value(u) * value(v)` over all entries
`((u, v), coeff)`.  Diagonal entries `(v, v)` contribute `coeff * value(v)`
since binary values are idempotent. -/
def quboEnergy (Q : List ((String × String) × ℤ)) (s : String → Bool) : ℤ :=
  (Q.map (fun e => e.2 * bval (s e.1.1) * bval (s e.1.2))).sum

/-- The AND-gate QUBO coefficients of `Boolean_AND_Gate.py`:
`Q = {('x1', 'x2'): 1, ('x1', 'z'): -2, ('x2', 'z'): -2, ('z', 'z'): 3}`. -/
def Q_and : List ((String × String) × ℤ) :=
  [(("x1", "x2"), 1), (("x1", "z"), -2), (("x2", "z"), -2), (("z", "z"), 3)]

/-- The NOT-gate QUBO coefficients of `Boolean_NOT_Gate.py` (also `Q_not` of
`Boolean_AND_Gate.py`):
`Q = {('x', 'x'): -1, ('x', 'z'): 2, ('z', 'x'): 0, ('z', 'z'): -1}`. -/
def Q_not : List ((String × String) × ℤ) :=
  [(("x", "x"), -1), (("x", "z"), 2), (("z", "x"), 0), (("z", "z"), -1)]

/-- Assignment of the three AND-gate variables by name. -/
def andAssignment (x1 x2 z : Bool) : String → Bool :=
  fun v => if v = "x1" then x1 else if v = "x2" then x2 else z

/-- Assignment of the two NOT-gate variables by name. -/
def notAssignment (x z : Bool) : String → Bool :=
  fun v => if v = "x" then x else z

/-- The constraint function `scheduling` of `Constrained_Scheduling.py`,
translated clause for clause:
if `time` (business hours) the meeting must be in office (`location`) and
mandatory; otherwise it must be teleconferenced (`not location`) and short
(`length`). -/
def scheduling (time location length mandatory : Bool) : Bool :=
  if time then
    location && mandatory
  else
    !location && length

/-- The single comprehensive constraint `logic_circuit` of
`Multiple-Gate_Circuit.py`, translated wire for wire; it returns whether `z`
equals the circuit output `or7`. -/
def logic_circuit (a b c d z : Bool) : Bool :=
  let not1 := !b
  let or2 := b || c
  let and3 := a && not1
  let or4 := or2 || d
  let and5 := and3 && or4
  let not6 := !or4
  let or7 := and5 || not6
  z == or7

/-- Modelled from the spec: the OR-gate constraint produced by the vendor
factory `dwavebinarycsp.factories.constraint.gates.or_gate([a, b, o])`, which
is satisfied exactly when `o = a OR b`. -/
def or_gate (a b o : Bool) : Bool := o == (a || b)

/-- Modelled from the spec: the AND-gate constraint produced by the vendor
factory `dwavebinarycsp.factories.constraint.gates.and_gate([a, b, o])`, which
is satisfied exactly when `o = a AND b`. -/
def and_gate (a b o : Bool) : Bool := o == (a && b)

/-- Modelled from the spec: the constraint `operator.ne` on two binary
variables, satisfied exactly when they differ (a NOT gate). -/
def operator_ne (a b : Bool) : Bool := a != b

/-- The second CSP formulation of `Multiple-Gate_Circuit.py`: the conjunction
of the seven gate constraints added by the `csp.add_constraint` calls, over
the inputs `a, b, c, d`, output `z` and the auxiliary wire variables
`not1, or2, and3, or4, and5, not6`. -/
def circuit_csp (a b c d z not1 or2 and3 or4 and5 not6 : Bool) : Bool :=
  operator_ne b not1 &&
  or_gate b c or2 &&
  and_gate a not1 and3 &&
  or_gate d or2 or4 &&
  and_gate and3 or4 and5 &&
  operator_ne or4 not6 &&
  or_gate and5 not6 z

/-- A record of a sampler result set, as iterated by the scripts via
`response.data(['sample', 'energy', 'num_occurrences'])`: a variable
assignment, an energy value, and an occurrence count. -/
structure Datum (α : Type) where
  sample : α
  energy : ℤ
  num_occurrences : ℕ
  deriving DecidableEq

/-- Sort a list ascending by an integer key (stable insertion sort). -/
def sortByEnergy {α : Type} (f : α → ℤ) (l : List α) : List α :=
  List.insertionSort (fun p q => f p ≤ f q) l

/-- Modelled from the spec: the record set returned by the vendor service in
sorted order.  The vendor library is not part of the repository; the scripts
rely on the sorted order placing the BQM's lowest value in the first record
(`Constrained_Scheduling.py` reads `min_energy` from the first record), so the
service is modelled as sorting the records by energy with the lowest first. -/
def sortedResponse {α : Type} (resp : List (Datum α)) : List (Datum α) :=
  sortByEnergy Datum.energy resp

/-- The `min_energy` extraction of `Constrained_Scheduling.py`:
`min_energy = next(solution.data(['energy']))[0]`, the energy field of the
first record of the (sorted) result set. -/
def min_energy {α : Type} (solution : List (Datum α)) : Option ℤ :=
  solution.head?.map Datum.energy

/-- A sequence of energies is non-increasing: each energy is greater than or
equal to the next one in order. -/
def nonIncreasing (l : List ℤ) : Prop :=
  List.Sorted (fun a b => b ≤ a) l

instance nonIncreasingDecidable (l : List ℤ) : Decidable (nonIncreasing l) :=
  inferInstanceAs (Decidable (List.Sorted (fun a b => b ≤ a) l))

/-- A binary quadratic model as displayed by `Constrained_Scheduling.py`
(`bqm.linear`, `bqm.quadratic`): variables, linear coefficients, and quadratic
coefficients. -/
structure BQM where
  vars : List String
  linear : List (String × ℤ)
  quadratic : List ((String × String) × ℤ)

/-- Energy of a BQM at a Boolean assignment:
`∑ qi * xi + ∑ qij * xi * xj` over the stored coefficients. -/
def bqmEnergy (b : BQM) (s : String → Bool) : ℤ :=
  (b.linear.map (fun e => e.2 * bval (s e.1))).sum +
  (b.quadratic.map (fun e => e.2 * bval (s e.1.1) * bval (s e.1.2))).sum

/-- All assignments of Boolean values to a list of variables, as
association lists. -/
def allAssignments : List String → List (List (String × Bool))
  | [] => [[]]
  | v :: vs =>
    ((allAssignments vs).map (fun a => (v, false) :: a)) ++
    ((allAssignments vs).map (fun a => (v, true) :: a))

/-- Look up a variable in an association-list assignment. -/
def asgFun (a : List (String × Bool)) : String → Bool :=
  fun v => ((a.find? (fun p => p.1 == v)).map Prod.snd).getD false

/-- Modelled from the spec: `ExactSolver().sample(bqm)` of the vendor
library — a deterministic exhaustive enumeration of all assignments of the
BQM's variables, each with its energy, returned sorted by energy with the
lowest-energy record first. -/
def exactSolverSample (b : BQM) : List (List (String × Bool) × ℤ) :=
  sortByEnergy Prod.snd
    ((allAssignments b.vars).map (fun a => (a, bqmEnergy b (asgFun a))))

/-- The five-node star graph `s5 = nx.star_graph(4)` of `Vertex_Cover.py` as
an edge list: hub node `0` joined to leaves `1, 2, 3, 4`. -/
def star_graph (n : ℕ) : List (ℕ × ℕ) :=
  (List.range n).map (fun i => (0, i + 1))

/-- The edge list of `s5 = nx.star_graph(4)`. -/
def s5 : List (ℕ × ℕ) := star_graph 4

/-- The node list of `s5`. -/
def s5_nodes : List ℕ := List.range 5

/-- Whether a set of nodes covers every edge of an edge list: each edge is
incident with at least one node in the set. -/
def isVertexCover (edges : List (ℕ × ℕ)) (C : Finset ℕ) : Bool :=
  edges.all (fun e => decide (e.1 ∈ C) || decide (e.2 ∈ C))

/-- All subsets of a list of nodes, as finsets. -/
def subsetsOf : List ℕ → List (Finset ℕ)
  | [] => [∅]
  | v :: vs => subsetsOf vs ++ (subsetsOf vs).map (fun s => insert v s)

/-- Modelled from the spec: `dnx.min_vertex_cover(graph, ExactSolver())` of
the vendor graph library — returns a vertex cover of smallest size, modelled
as an exhaustive search over all subsets of the node list keeping a cover of
minimum cardinality. -/
def min_vertex_cover (edges : List (ℕ × ℕ)) (nodes : List ℕ) : Finset ℕ :=
  ((subsetsOf nodes).filter (fun s => isVertexCover edges s)).foldl
    (fun best s => if s.card < best.card then s else best) nodes.toFinset

/-- Run a script as the sequence of its library-call outcomes: calls execute
in order, and the first failure stops the script with that failure — there is
no handler, retry, or recovery path in any script. -/
def runScript : List (Except String Unit) → Except String Unit
  | [] => Except.ok ()
  | Except.error e :: _ => Except.error e
  | Except.ok _ :: rest => runScript rest

/-- The first failure among a sequence of library-call outcomes, if any. -/
def firstFailure : List (Except String Unit) → Option String
  | [] => none
  | Except.error e :: _ => some e
  | Except.ok _ :: rest => firstFailure rest

/-- Outcome of a whole script run given its first failure: the failure
propagated uncaught, or success when every call succeeded. -/
def propagated : Option String → Except String Unit
  | none => Except.ok ()
  | some e => Except.error e

/-- The library-call sequence of `Boolean_NOT_Gate.py`: construct the remote
sampler, wrap it in the embedding composite, sample the QUBO. -/
def not_gate_script (dwaveSampler embeddingComposite sampleQubo :
    Except String Unit) : Except String Unit :=
  runScript [dwaveSampler, embeddingComposite, sampleQubo]

/-- The library-call sequence of `Boolean_AND_Gate.py`: construct the remote
sampler, the automated embedding composite and a sampling call for the AND
QUBO, then three manual fixed embeddings each followed by a sampling call
(NOT QUBO, AND QUBO, AND QUBO with weak chain strength). -/
def and_gate_script
    (dwaveSampler embeddingComposite sampleQuboAnd1 fixedEmbeddingNot
      sampleQuboNot fixedEmbeddingAnd sampleQuboAnd2 fixedEmbeddingWeak
      sampleQuboWeak : Except String Unit) : Except String Unit :=
  runScript [dwaveSampler, embeddingComposite, sampleQuboAnd1,
    fixedEmbeddingNot, sampleQuboNot, fixedEmbeddingAnd, sampleQuboAnd2,
    fixedEmbeddingWeak, sampleQuboWeak]

/-- The library-call sequence of `Constrained_Scheduling.py`: add the
constraint, stitch the CSP to a BQM, sample with the exact solver, construct
the remote sampler and composite, sample on the remote service. -/
def scheduling_script (addConstraint stitch exactSample dwaveSampler
    embeddingComposite dwaveSample : Except String Unit) : Except String Unit :=
  runScript [addConstraint, stitch, exactSample, dwaveSampler,
    embeddingComposite, dwaveSample]

/-- The library-call sequence of `Vertex_Cover.py`: the exact-solver cover of
`s5`, construction of the remote sampler and composite, then five remote
cover calls (`s5`, `w5` twice, `c5` twice). -/
def vertex_cover_script (exactCover dwaveSampler embeddingComposite
    dwaveCoverS5 dwaveCoverW5a dwaveCoverW5b dwaveCoverC5a dwaveCoverC5b :
    Except String Unit) : Except String Unit :=
  runScript [exactCover, dwaveSampler, embeddingComposite, dwaveCoverS5,
    dwaveCoverW5a, dwaveCoverW5b, dwaveCoverC5a, dwaveCoverC5b]

/-- The library-call sequence of `Multiple-Gate_Circuit.py`: add the
constraints, stitch the CSP to a BQM, construct the remote sampler and
composite, sample, plot. -/
def circuit_script (addConstraints stitch dwaveSampler embeddingComposite
    dwaveSample plotCalls : Except String Unit) : Except String Unit :=
  runScript [addConstraints, stitch, dwaveSampler, embeddingComposite,
    dwaveSample, plotCalls]

/-- One step of the classification loop of `Multiple-Gate_Circuit.py`: the
accumulator holds `(valid, invalid, data)`; a record's occurrences are added
to `valid` and its sample appended `num_occurrences` times to `data` tagged
'1' when `csp.check` accepts the sample, and symmetrically to `invalid`
tagged '0' otherwise. -/
def classifyStep {α : Type} (check : α → Bool)
    (acc : ℕ × ℕ × List (α × ℤ × String)) (d : Datum α) :
    ℕ × ℕ × List (α × ℤ × String) :=
  if check d.sample then
    (acc.1 + d.num_occurrences, acc.2.1,
      acc.2.2 ++ List.replicate d.num_occurrences (d.sample, d.energy, "1"))
  else
    (acc.1, acc.2.1 + d.num_occurrences,
      acc.2.2 ++ List.replicate d.num_occurrences (d.sample, d.energy, "0"))

/-- The classification loop of `Multiple-Gate_Circuit.py` over the returned
records, starting from `valid, invalid, data = 0, 0, []`. -/
def classify {α : Type} (check : α → Bool) (resp : List (Datum α)) :
    ℕ × ℕ × List (α × ℤ × String) :=
  resp.foldl (classifyStep check) (0, 0, [])

/-- The occurrence-totalling loop of `Constrained_Scheduling.py`:
`total = total + occurrences` over all returned records, from `total = 0`. -/
def total_occurrences {α : Type} (resp : List (Datum α)) : ℕ :=
  resp.foldl (fun t d => t + d.num_occurrences) 0

/-- The manual minor-embedding for the NOT gate in `Boolean_AND_Gate.py`:
`{'x': [0], 'z': [4]}`. -/
def not_gate_embedding : List (String × List ℕ) :=
  [("x", [0]), ("z", [4])]

/-- The manual minor-embedding for the AND gate in `Boolean_AND_Gate.py`:
`embedding = {'x1': {1}, 'x2': {5}, 'z': {0, 4}}`. -/
def and_gate_embedding : List (String × List ℕ) :=
  [("x1", [1]), ("x2", [5]), ("z", [0, 4])]

theorem sorted_sortByEnergy {α : Type} (f : α → ℤ) (l : List α) :
    List.Sorted (fun p q => f p ≤ f q) (sortByEnergy f l) := by
  haveI : IsTotal α (fun p q => f p ≤ f q) := ⟨fun a b => le_total (f a) (f b)⟩
  haveI : IsTrans α (fun p q => f p ≤ f q) := ⟨fun _ _ _ h1 h2 => le_trans h1 h2⟩
  exact List.sorted_insertionSort _ _

theorem sortByEnergy_head_min {α : Type} (f : α → ℤ) (l : List α) (m : α)
    (h : (sortByEnergy f l).head? = some m) : ∀ x ∈ l, f m ≤ f x := by
  intro x hx
  have hs := sorted_sortByEnergy f l
  have hmem : x ∈ sortByEnergy f l := (List.mem_insertionSort _).mpr hx
  cases hsort : sortByEnergy f l with
  | nil => rw [hsort] at h; simp at h
  | cons a t =>
    rw [hsort] at h hmem hs
    simp only [List.head?_cons, Option.some.injEq] at h
    subst h
    rcases List.mem_cons.mp hmem with rfl | hxt
    · exact le_refl _
    · exact List.rel_of_sorted_cons hs x hxt

theorem runScript_eq_propagated (calls : List (Except String Unit)) :
    runScript calls = propagated (firstFailure calls) := by
  induction calls with
  | nil => rfl
  | cons c rest ih =>
    cases c with
    | error e => rfl
    | ok u => exact ih

/-- C1: the two CSP formulations of the multi-gate circuit are equivalent:
`logic_circuit(a, b, c, d, z)` returns True exactly when some assignment to
the auxiliary wires `not1, or2, and3, or4, and5, not6` satisfies all seven
gate constraints of the second formulation. -/
theorem c1_circuit_formulations_equivalent :
    ∀ a b c d z : Bool,
      logic_circuit a b c d z = true ↔
        ∃ not1 or2 and3 or4 and5 not6 : Bool,
          circuit_csp a b c d z not1 or2 and3 or4 and5 not6 = true := by
  decide

/-- C2: the AND-gate QUBO is a correct formulation of the Boolean AND gate:
the energy of `Q` at `(x1, x2, z)` equals
`x1*x2 - 2*x1*z - 2*x2*z + 3*z`, is `0` exactly when `z = x1 AND x2`, and is
at least `1` for every other assignment. -/
theorem c2_and_qubo_correct :
    ∀ x1 x2 z : Bool,
      quboEnergy Q_and (andAssignment x1 x2 z) =
        bval x1 * bval x2 - 2 * bval x1 * bval z - 2 * bval x2 * bval z +
          3 * bval z ∧
      (quboEnergy Q_and (andAssignment x1 x2 z) = 0 ↔ z = (x1 && x2)) ∧
      (quboEnergy Q_and (andAssignment x1 x2 z) = 0 ∨
        1 ≤ quboEnergy Q_and (andAssignment x1 x2 z)) := by
  decide

/-- C4: `scheduling(time, location, length, mandatory)` returns True exactly
when the four scheduling constraints hold: during business hours it returns
`location AND mandatory`, and outside business hours it returns
`(NOT location) AND length`. -/
theorem c4_scheduling_constraints :
    ∀ time location length mandatory : Bool,
      scheduling time location length mandatory =
        if time then location && mandatory else !location && length := by
  decide

/-- C5: the NOT-gate QUBO is a correct formulation of the Boolean NOT gate:
the energy of `Q` at `(x, z)` attains its minimum value `-1` exactly when
`z = NOT x`, and equals `0` for the two assignments with `z = x`. -/
theorem c5_not_qubo_correct :
    ∀ x z : Bool,
      (quboEnergy Q_not (notAssignment x z) = if z = !x then -1 else 0) ∧
      -1 ≤ quboEnergy Q_not (notAssignment x z) := by
  decide

/-- C10: each manual minor-embedding of `Boolean_AND_Gate.py` assigns every
logical variable a fixed nonempty set of physical qubits, pairwise disjoint
across variables; in the NOT-gate embedding every chain is a single qubit,
and in the AND-gate embedding only `z` has a multi-qubit chain. -/
theorem c10_manual_embeddings :
    (∀ p ∈ not_gate_embedding, p.2 ≠ []) ∧
    List.Pairwise (fun p q => ∀ a ∈ p.2, a ∉ q.2) not_gate_embedding ∧
    (∀ p ∈ not_gate_embedding, p.2.length = 1) ∧
    (∀ p ∈ and_gate_embedding, p.2 ≠ []) ∧
    List.Pairwise (fun p q => ∀ a ∈ p.2, a ∉ q.2) and_gate_embedding ∧
    (∀ p ∈ and_gate_embedding, 1 < p.2.length → p.1 = "z") := by
  decide

/-- C3 counterexample: a sorted result set whose first record holds the
lowest energy (as `Constrained_Scheduling.py` relies upon for `min_energy`)
has its energies in increasing order `[2, 5]`, which is not non-increasing:
the claimed sort order contradicts the script's own use of the first
record. -/
theorem c3_counterexample :
    min_energy (sortedResponse [(⟨(), 5, 1⟩ : Datum Unit), ⟨(), 2, 1⟩]) =
      some 2 ∧
    (sortedResponse [(⟨(), 5, 1⟩ : Datum Unit), ⟨(), 2, 1⟩]).map Datum.energy =
      [2, 5] ∧
    ¬ nonIncreasing
      ((sortedResponse [(⟨(), 5, 1⟩ : Datum Unit), ⟨(), 2, 1⟩]).map
        Datum.energy) := by
  refine ⟨by decide, by decide, ?_⟩
  intro hni
  have h25 :
      (sortedResponse [(⟨(), 5, 1⟩ : Datum Unit), ⟨(), 2, 1⟩]).map
        Datum.energy = [2, 5] := by decide
  rw [h25] at hni
  exact absurd (List.rel_of_sorted_cons hni 5 (by decide)) (by decide)

/-- C3 (amended): when the service returns sorted results the energy values
are non-DEcreasing in sort order, so the first record of the sorted result —
read by the scheduling script as `min_energy` — holds the minimum energy over
the returned record set. -/
theorem c3_sorted_response_nondecreasing {α : Type} (resp : List (Datum α))
    (m : ℤ) (h : min_energy (sortedResponse resp) = some m) :
    List.Sorted (fun a b => a ≤ b)
      ((sortedResponse resp).map Datum.energy) ∧
    ∀ d ∈ resp, m ≤ d.energy := by
  constructor
  · exact List.Pairwise.map _ (fun a b hab => hab)
      (sorted_sortByEnergy Datum.energy resp)
  · intro d hd
    unfold min_energy at h
    cases hh : (sortedResponse resp).head? with
    | none => rw [hh] at h; simp at h
    | some rec0 =>
      rw [hh] at h
      simp only [Option.map_some', Option.some.injEq] at h
      subst h
      exact sortByEnergy_head_min Datum.energy resp rec0 hh d hd

theorem c3_witness :
    min_energy (sortedResponse [(⟨(), 3, 1⟩ : Datum Unit), ⟨(), 1, 2⟩]) =
      some 1 ∧
    (List.Sorted (fun a b => a ≤ b)
        ((sortedResponse [(⟨(), 3, 1⟩ : Datum Unit), ⟨(), 1, 2⟩]).map
          Datum.energy) ∧
      ∀ d ∈ [(⟨(), 3, 1⟩ : Datum Unit), ⟨(), 1, 2⟩], 1 ≤ d.energy) :=
  ⟨by decide, c3_sorted_response_nondecreasing _ 1 (by decide)⟩

/-- C6: the classical exact solve is deterministic: any two result sets
obtained from `ExactSolver().sample` on the same BQM agree on the
minimum-energy assignment (their first records), and that first record's
energy is minimal over the whole result set. -/
theorem c6_exact_solver_deterministic (b : BQM)
    (r1 r2 : List (List (String × Bool) × ℤ))
    (h1 : r1 = exactSolverSample b) (h2 : r2 = exactSolverSample b) :
    r1.head?.map Prod.fst = r2.head?.map Prod.fst ∧
    ∀ m ∈ r1.head?, ∀ p ∈ r1, m.2 ≤ p.2 := by
  subst h1; subst h2
  refine ⟨rfl, ?_⟩
  intro m hm p hp
  have hh : (exactSolverSample b).head? = some m := Option.mem_def.mp hm
  have hp' :
      p ∈ (allAssignments b.vars).map
        (fun a => (a, bqmEnergy b (asgFun a))) :=
    (List.mem_insertionSort _).mp hp
  exact sortByEnergy_head_min Prod.snd _ m hh p hp'

theorem c6_witness :
    ([([("t", true)], -1), ([("t", false)], 0)] :
        List (List (String × Bool) × ℤ)).head?.map Prod.fst =
      (exactSolverSample ⟨["t"], [("t", -1)], []⟩).head?.map Prod.fst ∧
    ∀ m ∈ ([([("t", true)], -1), ([("t", false)], 0)] :
        List (List (String × Bool) × ℤ)).head?,
      ∀ p ∈ ([([("t", true)], -1), ([("t", false)], 0)] :
        List (List (String × Bool) × ℤ)), m.2 ≤ p.2 :=
  c6_exact_solver_deterministic ⟨["t"], [("t", -1)], []⟩ _ _ (by decide) rfl

/-- C8: no script implements any error handling: each script is the plain
sequence of its library calls, so its outcome is exactly the propagation of
the first failing call (and success only when every call succeeds); no
handler, retry, or recovery path exists. -/
theorem c8_no_error_handling :
    ∀ a1 a2 a3 b1 b2 b3 b4 b5 b6 b7 b8 b9 f1 f2 f3 f4 f5 f6
      d1 d2 d3 d4 d5 d6 d7 d8 e1 e2 e3 e4 e5 e6 : Except String Unit,
      not_gate_script a1 a2 a3 = propagated (firstFailure [a1, a2, a3]) ∧
      and_gate_script b1 b2 b3 b4 b5 b6 b7 b8 b9 =
        propagated (firstFailure [b1, b2, b3, b4, b5, b6, b7, b8, b9]) ∧
      scheduling_script f1 f2 f3 f4 f5 f6 =
        propagated (firstFailure [f1, f2, f3, f4, f5, f6]) ∧
      vertex_cover_script d1 d2 d3 d4 d5 d6 d7 d8 =
        propagated (firstFailure [d1, d2, d3, d4, d5, d6, d7, d8]) ∧
      circuit_script e1 e2 e3 e4 e5 e6 =
        propagated (firstFailure [e1, e2, e3, e4, e5, e6]) ∧
      ∀ calls : List (Except String Unit),
        (runScript calls = Except.ok () ↔ firstFailure calls = none) := by
  intro a1 a2 a3 b1 b2 b3 b4 b5 b6 b7 b8 b9 f1 f2 f3 f4 f5 f6
    d1 d2 d3 d4 d5 d6 d7 d8 e1 e2 e3 e4 e5 e6
  refine ⟨runScript_eq_propagated _, runScript_eq_propagated _,
    runScript_eq_propagated _, runScript_eq_propagated _,
    runScript_eq_propagated _, ?_⟩
  intro calls
  rw [runScript_eq_propagated]
  cases firstFailure calls <;> simp [propagated]

theorem classify_fold_valid {α : Type} (check : α → Bool)
    (resp : List (Datum α)) :
    ∀ (v i : ℕ) (dl : List (α × ℤ × String)),
      (resp.foldl (classifyStep check) (v, i, dl)).1 =
        v + ((resp.filter (fun d => check d.sample)).map
          Datum.num_occurrences).sum := by
  induction resp with
  | nil => intro v i dl; simp
  | cons d rest ih =>
    intro v i dl
    by_cases h : check d.sample
    · simp only [List.foldl_cons, classifyStep, h, if_true, if_false,
        List.filter_cons, Bool.false_eq_true, ite_true, ite_false,
        List.map_cons, List.sum_cons, ih]
      try omega
    · simp only [List.foldl_cons, classifyStep, h, if_true, if_false,
        List.filter_cons, Bool.false_eq_true, ite_true, ite_false,
        List.map_cons, List.sum_cons, ih]
      try omega

theorem classify_fold_invalid {α : Type} (check : α → Bool)
    (resp : List (Datum α)) :
    ∀ (v i : ℕ) (dl : List (α × ℤ × String)),
      (resp.foldl (classifyStep check) (v, i, dl)).2.1 =
        i + ((resp.filter (fun d => !check d.sample)).map
          Datum.num_occurrences).sum := by
  induction resp with
  | nil => intro v i dl; simp
  | cons d rest ih =>
    intro v i dl
    by_cases h : check d.sample
    · simp only [List.foldl_cons, classifyStep, h, if_true, if_false,
        List.filter_cons, Bool.not_true, Bool.not_false,
        Bool.false_eq_true, ite_true, ite_false,
        List.map_cons, List.sum_cons, ih]
      try omega
    · simp only [List.foldl_cons, classifyStep, h, if_true, if_false,
        List.filter_cons, Bool.not_true, Bool.not_false,
        Bool.false_eq_true, ite_true, ite_false,
        List.map_cons, List.sum_cons, ih]
      try omega

theorem classify_fold_length {α : Type} (check : α → Bool)
    (resp : List (Datum α)) :
    ∀ (v i : ℕ) (dl : List (α × ℤ × String)),
      (resp.foldl (classifyStep check) (v, i, dl)).2.2.length =
        dl.length + (resp.map Datum.num_occurrences).sum := by
  induction resp with
  | nil => intro v i dl; simp
  | cons d rest ih =>
    intro v i dl
    by_cases h : check d.sample <;>
      simp only [List.foldl_cons, classifyStep, h, if_true, if_false,
        Bool.false_eq_true, ite_true, ite_false, List.map_cons,
        List.sum_cons, ih, List.length_append, List.length_replicate] <;>
      omega

theorem sum_filter_split {α : Type} (p : α → Bool) (f : α → ℕ)
    (l : List α) :
    ((l.filter p).map f).sum + ((l.filter (fun a => !p a)).map f).sum =
      (l.map f).sum := by
  induction l with
  | nil => simp
  | cons a t ih =>
    by_cases h : p a <;>
      simp only [List.filter_cons, h, Bool.not_true, Bool.not_false,
        Bool.false_eq_true, ite_true, ite_false, List.map_cons,
        List.sum_cons, ← ih] <;> omega

theorem total_fold {α : Type} (resp : List (Datum α)) :
    ∀ t : ℕ,
      resp.foldl (fun t d => t + d.num_occurrences) t =
        t + (resp.map Datum.num_occurrences).sum := by
  induction resp with
  | nil => intro t; simp
  | cons d rest ih =>
    intro t
    simp only [List.foldl_cons, List.map_cons, List.sum_cons, ih]
    omega

/-- C9: the occurrence-counting loops partition the returned samples
exactly: `valid` is the occurrence total of the records accepted by
`csp.check`, `invalid` that of the rejected ones, `valid + invalid` equals
the occurrence total over all records, `len(data) = valid + invalid`, and
the scheduling script's `total` also equals the occurrence total over all
records. -/
theorem c9_counting_loops_partition {α : Type} (check : α → Bool)
    (resp : List (Datum α)) :
    (classify check resp).1 =
      ((resp.filter (fun d => check d.sample)).map
        Datum.num_occurrences).sum ∧
    (classify check resp).2.1 =
      ((resp.filter (fun d => !check d.sample)).map
        Datum.num_occurrences).sum ∧
    (classify check resp).1 + (classify check resp).2.1 =
      (resp.map Datum.num_occurrences).sum ∧
    (classify check resp).2.2.length =
      (classify check resp).1 + (classify check resp).2.1 ∧
    total_occurrences resp = (resp.map Datum.num_occurrences).sum := by
  have hv := classify_fold_valid check resp 0 0 []
  have hi := classify_fold_invalid check resp 0 0 []
  have hl := classify_fold_length check resp 0 0 []
  have hs := sum_filter_split (fun d => check d.sample)
    Datum.num_occurrences resp
  have ht := total_fold resp 0
  simp only [List.length_nil, Nat.zero_add] at hv hi hl ht
  unfold classify total_occurrences
  rw [hv, hi, hl, ht]
  exact ⟨rfl, rfl, hs, hs.symm, rfl⟩

/-- C7: on the five-node star graph `s5`, the minimum-vertex-cover call with
the exact solver returns a set covering every edge of minimum cardinality:
the result is exactly the singleton containing the hub vertex `0` — `{0}` is
a cover, every cover has at least one node, and every cover with at most one
node is `{0}`. -/
theorem c7_min_vertex_cover_s5 :
    min_vertex_cover s5 s5_nodes = {0} ∧
    isVertexCover s5 {0} = true ∧
    (∀ C : Finset ℕ, isVertexCover s5 C = true → 1 ≤ C.card) ∧
    (∀ C : Finset ℕ, isVertexCover s5 C = true → C.card ≤ 1 → C = {0}) := by
  refine ⟨by decide, by decide, ?_, ?_⟩
  · intro C hC
    have h01 : 0 ∈ C ∨ 1 ∈ C := by
      have := List.all_eq_true.mp hC (0, 1) (by decide)
      simpa using this
    rcases h01 with h | h
    · exact Finset.card_pos.mpr ⟨0, h⟩
    · exact Finset.card_pos.mpr ⟨1, h⟩
  · intro C hC hcard
    have h1 : 0 ∈ C ∨ 1 ∈ C := by
      have := List.all_eq_true.mp hC (0, 1) (by decide)
      simpa using this
    have h2 : 0 ∈ C ∨ 2 ∈ C := by
      have := List.all_eq_true.mp hC (0, 2) (by decide)
      simpa using this
    by_cases h0 : 0 ∈ C
    · have hsub : ({0} : Finset ℕ) ⊆ C := Finset.singleton_subset_iff.mpr h0
      have hle : C.card ≤ ({0} : Finset ℕ).card := by
        simpa using hcard
      exact (Finset.eq_of_subset_of_card_le hsub hle).symm
    · have hm1 : 1 ∈ C := h1.resolve_left h0
      have hm2 : 2 ∈ C := h2.resolve_left h0
      have hsub : ({1, 2} : Finset ℕ) ⊆ C := by
        intro x hx
        rcases Finset.mem_insert.mp hx with rfl | hx2
        · exact hm1
        · rw [Finset.mem_singleton.mp hx2]; exact hm2
      have h2le : ({1, 2} : Finset ℕ).card ≤ C.card :=
        Finset.card_le_card hsub
      have : (2 : ℕ) ≤ C.card := by simpa using h2le
      omega

theorem c7_witness :
    isVertexCover s5 {0} = true ∧
    1 ≤ Finset.card ({0} : Finset ℕ) ∧
    Finset.card ({0} : Finset ℕ) ≤ 1 ∧
    ({0} : Finset ℕ) = {0} :=
  ⟨by decide, c7_min_vertex_cover_s5.2.2.1 {0} (by decide), by decide,
    c7_min_vertex_cover_s5.2.2.2 {0} (by decide) (by decide)⟩

theorem c10_witness :
    ("z", ([0, 4] : List ℕ)) ∈ and_gate_embedding ∧
    1 < ([0, 4] : List ℕ).length ∧
    ("z", ([0, 4] : List ℕ)).1 = "z" :=
  ⟨by decide, by decide,
    c10_manual_embeddings.2.2.2.2.2 ("z", [0, 4]) (by decide) (by decide)⟩

end DWave
